import Mathlib

/-!
Shallow embedding of the bench-interaction and simulated-effect core of
`src/app.js` (Receptive-Science).  JS numbers are modelled as exact
rationals (`ℚ`); each `Math.random()` call is an explicit entropy
parameter; DOM/rendering backends are out of scope per the spec, so the
embedded functions return the state and data the handlers compute.  The
effect model is embedded as the source executes it: its first statement
faults under strict mode, and the embedding carries that error path.
-/

/-- `Math.round` of JS: round half toward positive infinity. -/
def jsRound (x : ℚ) : Int := Int.floor (x + 1/2)

/-- JS `x || d` for a numeric `x`: the left operand is kept unless it is
falsy.  In exact rational arithmetic the falsy numbers are exactly `0`
(NaN and `-0` have no separate representative). -/
def jsOrQ (x : Option ℚ) (d : ℚ) : ℚ :=
  match x with
  | none => d
  | some a => if a = 0 then d else a

/-- JS `s || d` for an optional string `s` (`undefined` and `""` are falsy). -/
def jsOrString (s : Option String) (d : String) : String :=
  match s with
  | none => d
  | some v => if v = "" then d else v

/-- An RGB colour as THREE.Color stores it: three channels in `[0,1]`. -/
structure RGBColor where
  r : ℚ
  g : ℚ
  b : ℚ
  deriving DecidableEq, Repr

/-- `THREE.Color.lerp(target, alpha)`: per channel
`this.c += (target.c - this.c) * alpha`. -/
def RGBColor.lerp (c target : RGBColor) (alpha : ℚ) : RGBColor :=
  { r := c.r + (target.r - c.r) * alpha
    g := c.g + (target.g - c.g) * alpha
    b := c.b + (target.b - c.b) * alpha }

/-- A Target record of the catalog: `{receptor, affinity}`. -/
structure Target where
  receptor : String
  affinity : ℚ
  deriving DecidableEq, Repr

/-- A Molecule record of the catalog:
`{id, name, formula, color, safety?, targets}`.  `color`, `safety` and
`targets` are optional because the code guards each with `||` or `?.`. -/
structure Molecule where
  id : String
  name : String
  formula : String
  color : Option RGBColor
  safety : Option String
  targets : Option (List Target)
  deriving DecidableEq, Repr

/-- The mock brainwave vector of `getSimulatedEffects`. -/
structure Brainwave where
  delta : ℚ
  theta : ℚ
  alpha : ℚ
  beta : ℚ
  deriving DecidableEq, Repr

/-- The record returned by `getSimulatedEffects`. -/
structure EffectResult where
  activation : ℚ
  brainwave : Brainwave
  mood : String
  safety : String
  receptor : String
  deriving DecidableEq, Repr

/-- The five successive `Math.random()` results one call of
`getSimulatedEffects` consumes, each drawn from `[0,1)`. -/
structure Entropy where
  u0 : ℚ
  u1 : ℚ
  u2 : ℚ
  u3 : ℚ
  u4 : ℚ
  deriving DecidableEq, Repr

/-- `molecule.targets?.find(t => t.receptor === receptor)`:
the first Target whose receptor name equals `receptor` exactly
(case-sensitive `===`), `none` when `targets` is absent or no entry
matches. -/
def matchedTarget (molecule : Molecule) (receptor : String) : Option Target :=
  molecule.targets.bind (fun ts => ts.find? (fun t => t.receptor == receptor))

/-- `(molecule.targets?.find(...)?.affinity) || 0.05` — the affinity the
effect model actually uses. -/
def resolvedAffinity (molecule : Molecule) (receptor : String) : ℚ :=
  jsOrQ ((matchedTarget molecule receptor).map Target.affinity) 0.05

/-- A JS runtime error, as far as the claims need one. -/
inductive JsError where
  | referenceError (name : String)
  deriving DecidableEq, Repr

/-- Strict-mode assignment `name = v`: ES modules are always strict, so an
assignment whose target is declared in no enclosing scope throws
`ReferenceError` instead of creating a global. -/
def strictAssign (declared : List String) (name : String) : Except JsError Unit :=
  if name ∈ declared then Except.ok () else Except.error (JsError.referenceError name)

/-- Every binding visible inside the body of `getSimulatedEffects`: its
parameters, the `const`s its body declares, and the module-level
declarations of app.js (imports, module `const`/`let`s, hoisted function
declarations). -/
def getSimulatedEffectsScope : List String :=
  ["molecule", "receptor", "activation", "brainwave", "mood", "safety",
   "THREE", "OrbitControls", "GLTFLoader", "dataService", "q", "qi",
   "molecules", "renderer", "scene", "camera", "controls", "beakers",
   "initMoleculeList", "initThreeScene", "animate", "onResize",
   "setupDropOnBeakers", "addMoleculeToBeaker", "initBrainChart",
   "setupUI", "displayConnectionResult", "updateSummary",
   "initVisionSimulator", "initAmbientAudio"]

/-- The assignment target of the first statement of
`getSimulatedEffects`: the source reads `constAffinity = …` (a missing
space in `const affinity`), so `constAffinity` is an assignment target,
not a declaration. -/
def getSimulatedEffectsFirstAssignTarget : String := "constAffinity"

/-- `dataService.getSimulatedEffects(molecule, receptor)` as the source
executes it, with the entropy source made explicit (`g.u0` is the draw of
the activation line, `g.u1` … `g.u4` the draws of the four brainwave
lines, in source order).  Its first statement `constAffinity = …` first
evaluates its right-hand side (the lookup and `|| 0.05`), then resolves
the assignment target under strict-mode rules — JS evaluates the
right-hand side before `PutValue` faults on an unresolvable reference —
so the call throws `ReferenceError` and the remaining lines (activation,
brainwave, mood, safety, return) never run.  The `ok` branch carries the
computation those lines describe, so that the strict-mode name
resolution alone — not the embedding — decides the call's fate. -/
def getSimulatedEffects (molecule : Molecule) (receptor : String) (g : Entropy) :
    Except JsError EffectResult :=
  let affinity := resolvedAffinity molecule receptor
  match strictAssign getSimulatedEffectsScope getSimulatedEffectsFirstAssignTarget with
  | Except.error e => Except.error e
  | Except.ok _ =>
    let activation := min 1 (affinity * (0.8 + g.u0 * 0.6))
    let brainwave : Brainwave :=
      { delta := max 0 (0.1 + (activation * 0.1) * g.u1)
        theta := max 0 (0.1 + (activation * 0.08) * g.u2)
        alpha := max 0 (0.2 + (activation * 0.12) * g.u3)
        beta := max 0 (0.15 + (activation * 0.09) * g.u4) }
    let mood := if activation > 0.4 then "elevated" else "neutral"
    let safety := jsOrString molecule.safety "yellow"
    Except.ok { activation := activation, brainwave := brainwave, mood := mood,
                safety := safety, receptor := receptor }

/-- A beaker slot of the bench: its ordered contents and the colour of the
liquid mesh (`beakers[i].contents`, `beakers[i].liquid.material.color`). -/
structure Beaker where
  contents : List Molecule
  liquidColor : RGBColor
  deriving DecidableEq, Repr

/-- The bench: the module-level `beakers` array. -/
structure BenchState where
  beakers : List Beaker
  deriving DecidableEq, Repr

/-- `0x66c2ff`, the colour every liquid mesh starts with and the fallback
of `mol.color || '#66c2ff'`. -/
def initialLiquidColor : RGBColor :=
  { r := 102/255, g := 194/255, b := 255/255 }

/-- `addMoleculeToBeaker(mol, beaker)` restricted to the state it mutates:
push `mol` onto `contents`, then recolour the liquid by
`color.lerp(new Color(mol.color || '#66c2ff'), 0.2)`.  The floating-model
mesh and its animation live in the rendering backend. -/
def addMoleculeToBeaker (mol : Molecule) (beaker : Beaker) : Beaker :=
  { contents := beaker.contents ++ [mol]
    liquidColor := beaker.liquidColor.lerp (mol.color.getD initialLiquidColor) 0.2 }

/-- The drop handler's index computation:
`Math.min(Math.max(Math.round((x+1)*1.5), 0), beakers.length-1)`.
Note the multiplier `1.5` is a literal in the source, independent of the
beaker count `n`. -/
def resolveDropIdx (x : ℚ) (n : Nat) : Int :=
  min (max (jsRound ((x + 1) * 1.5)) 0) ((n : Int) - 1)

/-- The formula of the specification, written from its words for
comparison: `round((x+1) * (beakerCount-1)/2)` clamped to
`[0, beakerCount-1]`. -/
def specDropTarget (x : ℚ) (n : Nat) : Int :=
  min (max (jsRound ((x + 1) * ((n : ℚ) - 1) / 2)) 0) ((n : Int) - 1)

/-- `molecules.find(m => m.id === id)`. -/
def lookupMolecule (molecules : List Molecule) (id : String) : Option Molecule :=
  molecules.find? (fun m => m.id == id)

/-- The body of the canvas `drop` listener: abort on an empty transfer
payload (`if(!id) return`), abort on an unknown id (`if(!mol) return`),
otherwise resolve the target beaker from the normalized x and add the
molecule to it.  The returned Bool records whether the flow reached the
mutation/emission stage (the `addMoleculeToBeaker` call and its visual
feedback); `false` means a silent no-op. -/
def handleDrop (molecules : List Molecule) (st : BenchState) (id : String) (x : ℚ) :
    BenchState × Bool :=
  if id = "" then (st, false)
  else
    match lookupMolecule molecules id with
    | none => (st, false)
    | some mol =>
      let idx := (resolveDropIdx x st.beakers.length).toNat
      match st.beakers.get? idx with
      | none => (st, false)
      | some b => ({ beakers := st.beakers.set idx (addMoleculeToBeaker mol b) }, true)

/-- The receptor-name resolution of `showReceptorDialog`:
`'1' ↦ '5-HT2A'`, `'2' ↦ 'D2'`, `'3' ↦ 'GABA-A'`, anything else taken
literally. -/
def resolveReceptorName (receptor : String) : String :=
  if receptor = "1" then "5-HT2A"
  else if receptor = "2" then "D2"
  else if receptor = "3" then "GABA-A"
  else receptor

/-- `showReceptorDialog(mol)` with the prompt's answer made explicit:
`none` is a cancelled prompt (JS `null`), `some ""` an empty answer; both
are falsy, so `if(!receptor) return` aborts and nothing is computed or
emitted (the flow result is `none`).  Otherwise the flow invokes the
effect model — whose outcome, value or thrown error, would be what
reaches `displayConnectionResult` (the Presentation Sink). -/
def showReceptorDialog (mol : Molecule) (selection : Option String) (g : Entropy) :
    Option (Except JsError EffectResult) :=
  match selection with
  | none => none
  | some receptor =>
    if receptor = "" then none
    else some (getSimulatedEffects mol (resolveReceptorName receptor) g)

/- ---------- concrete sample data used by scenario claims ---------- -/

/-- Pure red, `#ff0000`. -/
def redColor : RGBColor := { r := 1, g := 0, b := 0 }

/-- The scenario molecule M of the spec: colour `#ff0000`. -/
def molRed : Molecule :=
  { id := "M", name := "M", formula := "C0", color := some redColor,
    safety := none, targets := none }

/-- A molecule with no targets array at all. -/
def molNoPharm : Molecule :=
  { id := "plain", name := "Plain", formula := "H2O", color := none,
    safety := none, targets := none }

/-- A molecule whose only Target has affinity `0` — a legal affinity per
the data model (affinity ∈ [0,1]), but a falsy JS number. -/
def molZeroAff : Molecule :=
  { id := "z", name := "Z", formula := "Z1", color := none,
    safety := none, targets := some [{ receptor := "D2", affinity := 0 }] }

/-- A molecule binding D2 with affinity 0.9 (the spec's repeat scenario). -/
def molD2 : Molecule :=
  { id := "d", name := "Dmol", formula := "D9", color := none,
    safety := none, targets := some [{ receptor := "D2", affinity := 0.9 }] }

/-- A beaker as `initThreeScene` creates it: empty, liquid `0x66c2ff`. -/
def initialBeaker : Beaker := { contents := [], liquidColor := initialLiquidColor }

/-- The bench after `initThreeScene`: three fresh beakers. -/
def bench3 : BenchState := { beakers := [initialBeaker, initialBeaker, initialBeaker] }

/-- All five entropy draws zero — a legal value of `Math.random()`. -/
def randZero : Entropy := { u0 := 0, u1 := 0, u2 := 0, u3 := 0, u4 := 0 }

/- ---------- helper lemmas ---------- -/

/-- Evaluate `jsRound` by sandwiching its argument. -/
theorem jsRound_eq_of (x : ℚ) (z : ℤ) (h1 : (z : ℚ) ≤ x + 1/2) (h2 : x + 1/2 < z + 1) :
    jsRound x = z := by
  unfold jsRound
  exact Int.floor_eq_iff.mpr ⟨h1, h2⟩

/-- A matched Target is a member of the molecule's target list. -/
theorem matchedTarget_mem (m : Molecule) (rc : String) (t : Target)
    (h : matchedTarget m rc = some t) :
    ∃ ts, m.targets = some ts ∧ t ∈ ts := by
  unfold matchedTarget at h
  cases hts : m.targets with
  | none => rw [hts] at h; simp at h
  | some ts =>
    rw [hts] at h
    exact ⟨ts, rfl, List.mem_of_find?_eq_some h⟩

/-- The affinity the model uses is nonnegative whenever every catalog
affinity is (the data-model invariant affinity ∈ [0,1]). -/
theorem resolvedAffinity_nonneg (m : Molecule) (rc : String)
    (h : ∀ ts, m.targets = some ts → ∀ t ∈ ts, 0 ≤ t.affinity) :
    0 ≤ resolvedAffinity m rc := by
  unfold resolvedAffinity jsOrQ
  cases hm : matchedTarget m rc with
  | none => norm_num
  | some t =>
    obtain ⟨ts, hts, hmem⟩ := matchedTarget_mem m rc t hm
    have ht : 0 ≤ t.affinity := h ts hts t hmem
    show 0 ≤ if t.affinity = 0 then 0.05 else t.affinity
    split
    · norm_num
    · exact ht

/- ---------- claim theorems ---------- -/

/-- C1 (counterexample): at the centre drop `x = 0` with the scene's three
beakers, the code (`round((x+1)*1.5)` clamped) picks beaker 2, while the
claimed formula `round((x+1)*(n-1)/2)` clamped picks beaker 1. -/
theorem dropTarget_spec_formula_fails_at_center :
    resolveDropIdx 0 3 = 2 ∧ specDropTarget 0 3 = 1 ∧ (2 : Int) ≠ 1 := by
  refine ⟨?_, ?_, by decide⟩
  · have h : jsRound (((0 : ℚ) + 1) * 1.5) = 2 := jsRound_eq_of _ _ (by norm_num) (by norm_num)
    unfold resolveDropIdx
    rw [h]
    decide
  · have h : jsRound (((0 : ℚ) + 1) * (((3 : Nat) : ℚ) - 1) / 2) = 1 :=
      jsRound_eq_of _ _ (by norm_num) (by norm_num)
    unfold specDropTarget
    rw [h]
    decide

/-- C1 (amended): for every normalized x and beaker count n ≥ 1 the drop
handler returns `round((x+1) * 1.5)` — the multiplier is the literal 1.5,
not `(n-1)/2` — clamped to `[0, n-1]`. -/
theorem resolveDropIdx_hardcoded_formula (x : ℚ) (n : Nat) (hn : 1 ≤ n) :
    resolveDropIdx x n = min (max (jsRound ((x + 1) * 1.5)) 0) ((n : Int) - 1) ∧
    0 ≤ resolveDropIdx x n ∧ resolveDropIdx x n ≤ (n : Int) - 1 := by
  refine ⟨rfl, ?_, ?_⟩
  · exact le_min (le_max_right _ _) (by omega)
  · exact min_le_right _ _

/-- C1 (witness): the amended statement at `x = 1/2`, `n = 3`. -/
theorem resolveDropIdx_hardcoded_formula_witness :
    0 ≤ resolveDropIdx (1/2) 3 ∧ resolveDropIdx (1/2) 3 ≤ (3 : Int) - 1 :=
  ⟨(resolveDropIdx_hardcoded_formula (1/2) 3 (by norm_num)).2.1,
   (resolveDropIdx_hardcoded_formula (1/2) 3 (by norm_num)).2.2⟩

/-- C2 (code evaluated at the failing input): the first statement of
`getSimulatedEffects` assigns to `constAffinity` (the source dropped the
space of `const affinity`), an identifier declared in no enclosing scope;
app.js is an ES module, hence strict mode, so the assignment throws
`ReferenceError` on every call instead of completing without error. -/
theorem getSimulatedEffects_first_assignment_throws :
    getSimulatedEffectsFirstAssignTarget ∉ getSimulatedEffectsScope ∧
    strictAssign getSimulatedEffectsScope getSimulatedEffectsFirstAssignTarget
      = Except.error (JsError.referenceError "constAffinity") :=
  ⟨by decide, rfl⟩

/-- C3 (counterexample): a Target for "D2" with the legal affinity 0 exists,
yet `|| 0.05` treats the looked-up 0 as falsy, so the model uses 0.05, not
the matched Target's affinity. -/
theorem affinity_zero_target_falls_back_to_default :
    matchedTarget molZeroAff "D2" = some { receptor := "D2", affinity := 0 } ∧
    resolvedAffinity molZeroAff "D2" = 0.05 ∧
    resolvedAffinity molZeroAff "D2" ≠ 0 := by
  have h5 : resolvedAffinity molZeroAff "D2" = 0.05 := by
    simp [resolvedAffinity, matchedTarget, molZeroAff, jsOrQ, List.find?]
  exact ⟨by simp [matchedTarget, molZeroAff, List.find?], h5, by rw [h5]; norm_num⟩

/-- C3 (amended): the lookup is the case-sensitive exact match
`targets?.find(t => t.receptor === receptor)`; when no Target matches the
model uses 0.05, and when one matches it uses the Target's affinity unless
that affinity is 0 (a falsy number), in which case `|| 0.05` substitutes the
default. -/
theorem resolvedAffinity_lookup_rule (m : Molecule) (rc : String) (t : Target) :
    (matchedTarget m rc = none → resolvedAffinity m rc = 0.05) ∧
    (matchedTarget m rc = some t →
      resolvedAffinity m rc = if t.affinity = 0 then 0.05 else t.affinity) := by
  constructor <;> intro h <;> simp [resolvedAffinity, jsOrQ, h]

/-- C3 (witness): the amended rule at a molecule whose D2 Target has
affinity 0.9. -/
theorem resolvedAffinity_lookup_rule_witness :
    resolvedAffinity molD2 "D2" = 0.9 := by
  have h := (resolvedAffinity_lookup_rule molD2 "D2" { receptor := "D2", affinity := 0.9 }).2
    (by simp [matchedTarget, molD2, List.find?])
  rw [h, if_neg (by norm_num)]

/-- C4: `addMoleculeToBeaker` appends the molecule to the beaker's content
list and moves the liquid colour 20% of the way toward the molecule's
colour by one `lerp(current, mol.color, 0.2)` step; and in the spec's
scenario — three fresh beakers, a `#ff0000` molecule dropped at
`x = -1` — the molecule lands in beaker 0, whose liquid becomes
`lerp(initialColor, #ff0000, 0.2)`. -/
theorem addToBeaker_appends_and_lerps (mol : Molecule) (b : Beaker) (c : RGBColor)
    (hc : mol.color = some c) :
    (addMoleculeToBeaker mol b).contents = b.contents ++ [mol] ∧
    (addMoleculeToBeaker mol b).liquidColor = b.liquidColor.lerp c 0.2 ∧
    resolveDropIdx (-1) 3 = 0 ∧
    handleDrop [molRed] bench3 "M" (-1)
      = ({ beakers := [{ contents := [molRed],
                         liquidColor := initialLiquidColor.lerp redColor 0.2 },
                       initialBeaker, initialBeaker] }, true) := by
  have hidx : resolveDropIdx (-1) 3 = 0 := by
    have h : jsRound (((-1 : ℚ) + 1) * 1.5) = 0 := jsRound_eq_of _ _ (by norm_num) (by norm_num)
    unfold resolveDropIdx
    rw [h]
    decide
  refine ⟨rfl, ?_, hidx, ?_⟩
  · simp [addMoleculeToBeaker, hc]
  · simp [handleDrop, lookupMolecule, bench3, hidx, addMoleculeToBeaker, molRed, initialBeaker]

/-- C4 (witness): the append/lerp statement at the red molecule and a
fresh beaker. -/
theorem addToBeaker_appends_and_lerps_witness :
    (addMoleculeToBeaker molRed initialBeaker).contents = [molRed] ∧
    (addMoleculeToBeaker molRed initialBeaker).liquidColor
      = initialLiquidColor.lerp redColor 0.2 := by
  have h := addToBeaker_appends_and_lerps molRed initialBeaker redColor rfl
  exact ⟨h.1, h.2.1⟩

/-- C5 (code evaluated): no call of `getSimulatedEffects` ever returns a
result — the strict-mode assignment of its first statement throws before
the activation line runs — so the program never produces the claimed
`min(1, a·r)` activation for any molecule, receptor or entropy draw. -/
theorem activation_line_never_runs (m : Molecule) (rc : String) (g : Entropy) :
    getSimulatedEffects m rc g = Except.error (JsError.referenceError "constAffinity") := rfl

/-- C6 (code evaluated at the claim's scenario): for a molecule with no
targets array the right-hand side of the faulting line does evaluate to
the default affinity 0.05 before the throw, but the call then throws, so
no activation in [0, 0.07] and no "neutral" mood are ever produced. -/
theorem default_affinity_resolved_but_call_throws :
    resolvedAffinity molNoPharm "5-HT2A" = 0.05 ∧
    getSimulatedEffects molNoPharm "5-HT2A" randZero
      = Except.error (JsError.referenceError "constAffinity") := by
  refine ⟨?_, rfl⟩
  simp [resolvedAffinity, matchedTarget, molNoPharm, jsOrQ]

/-- C7 (code evaluated at the failing input): the brainwave lines are
dead code — a call for the affinity-0.9 D2 molecule throws at the first
statement, yields no result, and so computes none of the
`max(0, base + activation·scale·uᵢ)` components. -/
theorem brainwave_lines_are_dead_code :
    getSimulatedEffects molD2 "D2" randZero
      = Except.error (JsError.referenceError "constAffinity") ∧
    (getSimulatedEffects molD2 "D2" randZero).toOption = none :=
  ⟨rfl, rfl⟩

/-- C8 (counterexample): with five beakers a drop at the right edge
`x = 1` resolves to index 3, not `n - 1 = 4`: the hard-coded multiplier
caps the reachable index at 3. -/
theorem dropTarget_right_edge_fails_at_five_beakers :
    resolveDropIdx 1 5 = 3 ∧ resolveDropIdx 1 5 ≠ (5 : Int) - 1 := by
  have h : jsRound (((1 : ℚ) + 1) * 1.5) = 3 := jsRound_eq_of _ _ (by norm_num) (by norm_num)
  have h3 : resolveDropIdx 1 5 = 3 := by
    unfold resolveDropIdx
    rw [h]
    decide
  exact ⟨h3, by rw [h3]; decide⟩

/-- C8 (amended): the index computation is a pure function of x and the
beaker count (idempotent across re-evaluation); `resolveDropTarget(-1) = 0`
for every count n ≥ 1, and `resolveDropTarget(1) = min(3, n-1)`, which
equals `n - 1` exactly for counts up to 4 — in particular for the three
beakers the scene creates. -/
theorem resolveDropIdx_boundaries (n : Nat) (hn : 1 ≤ n) :
    resolveDropIdx (-1) n = 0 ∧
    resolveDropIdx 1 n = min 3 ((n : Int) - 1) ∧
    (n ≤ 4 → resolveDropIdx 1 n = (n : Int) - 1) := by
  have h0 : jsRound (((-1 : ℚ) + 1) * 1.5) = 0 := jsRound_eq_of _ _ (by norm_num) (by norm_num)
  have h3 : jsRound (((1 : ℚ) + 1) * 1.5) = 3 := jsRound_eq_of _ _ (by norm_num) (by norm_num)
  have hmax0 : max (0 : Int) 0 = 0 := by decide
  have hmax3 : max (3 : Int) 0 = 3 := by decide
  refine ⟨?_, ?_, ?_⟩
  · unfold resolveDropIdx
    rw [h0, hmax0]
    exact min_eq_left (by omega)
  · unfold resolveDropIdx
    rw [h3, hmax3]
  · intro h4
    unfold resolveDropIdx
    rw [h3, hmax3]
    exact min_eq_right (by omega)

/-- C8 (witness): the amended statement at the scene's three beakers. -/
theorem resolveDropIdx_boundaries_witness :
    resolveDropIdx (-1) 3 = 0 ∧ resolveDropIdx 1 3 = (3 : Int) - 1 := by
  have h := resolveDropIdx_boundaries 3 (by norm_num)
  exact ⟨h.1, h.2.2 (by norm_num)⟩

/-- C9: an empty transfer payload, a transfer id absent from the catalog,
and a cancelled or empty receptor selection each abort their flow as a
silent no-op: the bench is returned unchanged with nothing emitted, and no
effect is computed. -/
theorem aborted_flows_are_noops (mols : List Molecule) (st : BenchState) (x : ℚ)
    (id : String) (mol : Molecule) (sel : Option String) (g : Entropy) :
    handleDrop mols st "" x = (st, false) ∧
    (lookupMolecule mols id = none → handleDrop mols st id x = (st, false)) ∧
    (sel = none ∨ sel = some "" → showReceptorDialog mol sel g = none) := by
  refine ⟨by simp [handleDrop], ?_, ?_⟩
  · intro h
    by_cases hid : id = ""
    · simp [handleDrop, hid]
    · simp [handleDrop, hid, h]
  · rintro (rfl | rfl) <;> simp [showReceptorDialog]

/-- C9 (witness): a stale id on a one-molecule catalog and a cancelled
prompt, both no-ops. -/
theorem aborted_flows_are_noops_witness :
    handleDrop [molRed] bench3 "ghost" 0 = (bench3, false) ∧
    showReceptorDialog molRed none randZero = none := by
  have h := aborted_flows_are_noops [molRed] bench3 0 "ghost" molRed none randZero
  exact ⟨h.2.1 (by decide), h.2.2 (Or.inl rfl)⟩

/-- C10 (code evaluated): the `max(0, ·)` clamps are never evaluated —
for every entropy draw the call on the `#ff0000` molecule throws at the
first statement — so whether the clamp branch would ever decide is a
question about code that cannot run. -/
theorem brainwave_clamp_never_evaluated (g : Entropy) :
    getSimulatedEffects molRed "GABA-A" g
      = Except.error (JsError.referenceError "constAffinity") := rfl
